import Mathlib

/-
Verification of the OmniCore workflow orchestration engine
(omnicore/omnicore_workflows.py) against its natural-language
specification.

The Python module is shallowly embedded below.  Python dicts are
embedded as insertion-ordered association lists (`dictInsert` replaces
in place and appends new keys at the end, exactly like a Python dict
update); exceptions are embedded as `Except String`; the wall-clock
fields (`started_at`, `completed_at`, `duration`), the generated task
UUIDs, and the logging side effects are not observable by any claim and
are omitted from the state, except that the sequence of nodes passed to
`_execute_node` (which the source logs on entry) is kept as a `trace`
field.  The service call performed by `ServiceTaskNode._call_service`
stands in for the external Integration Gateway (the source comments
mark it as a placeholder for real external integration), so the
execution functions are parametrised by a `Gateway`; the gateway
`defaultGateway` reproduces the source's stub behaviour exactly.
-/

namespace Omnicore

/-- Python runtime values that flow through workflow variables:
integers, strings, booleans and dicts.  (Python `bool` is a subclass of
`int`; the comparison semantics below reflect that.) -/
inductive Value where
  | int (n : Int)
  | str (s : String)
  | bool (b : Bool)
  | dict (entries : List (String × Value))

/-- Python `str()` of a value, as used when a variable is interpolated
into a decision condition.  The rendering of composite (dict) values is
abbreviated; no modelled scenario interpolates a dict into a
condition. -/
def pyStr : Value → String
  | Value.int n => toString n
  | Value.str s => s
  | Value.bool b => if b then "True" else "False"
  | Value.dict _ => "dict"

/-- Python `type(value).__name__`, used by the engine when it wraps raw
values into `WorkflowVariable`s. -/
def pyTypeName : Value → String
  | Value.int _ => "int"
  | Value.str _ => "str"
  | Value.bool _ => "bool"
  | Value.dict _ => "dict"

/-- Lookup in an insertion-ordered association list (Python `d[k]` /
`k in d`). -/
def dictGet {α : Type} (m : List (String × α)) (k : String) : Option α :=
  match m with
  | [] => none
  | p :: rest => if p.1 = k then some p.2 else dictGet rest k

/-- Python `k in d`. -/
def dictContains {α : Type} (m : List (String × α)) (k : String) : Bool :=
  (dictGet m k).isSome

/-- Python `d[k] = v`: replaces the value in place if the key exists,
otherwise appends the new binding at the end (insertion order). -/
def dictInsert {α : Type} (m : List (String × α)) (k : String) (v : α) :
    List (String × α) :=
  match m with
  | [] => [(k, v)]
  | p :: rest => if p.1 = k then (k, v) :: rest else p :: dictInsert rest k v

/-- Python `del d[k]`. -/
def dictRemove {α : Type} (m : List (String × α)) (k : String) :
    List (String × α) :=
  match m with
  | [] => []
  | p :: rest => if p.1 = k then rest else p :: dictRemove rest k

/-- In-place mutation of the value stored under an existing key
(Python `d[k].method(...)`). -/
def dictUpdate {α : Type} (m : List (String × α)) (k : String) (f : α → α) :
    List (String × α) :=
  match m with
  | [] => []
  | p :: rest => if p.1 = k then (p.1, f p.2) :: rest else p :: dictUpdate rest k f

/-- Whether the first character list is an initial segment of the
second. -/
def startsWithChars : List Char → List Char → Bool
  | [], _ => true
  | _ :: _, [] => false
  | p :: ps, c :: cs => p = c && startsWithChars ps cs

/-- Replacement of every non-overlapping occurrence of a (non-empty)
pattern, left to right, over character lists.  The fuel argument is
instantiated with the string length (each step consumes at least one
character); it makes the recursion structural so that concrete proofs
compute. -/
def replaceCharsAux (pat repl : List Char) : Nat → List Char → List Char
  | 0, s => s
  | _ + 1, [] => []
  | fuel + 1, c :: cs =>
    if startsWithChars pat (c :: cs) then
      repl ++ replaceCharsAux pat repl fuel (List.drop (pat.length - 1) cs)
    else c :: replaceCharsAux pat repl fuel cs

/-- Python `str.replace(pat, repl)` for the non-empty patterns the
engine builds (`"\x7bname\x7d"`). -/
def pyReplace (s pat repl : String) : String :=
  String.mk (replaceCharsAux pat.data repl.data s.data.length s.data)

/-- Splits a character list into maximal runs of non-space characters
(the accumulator holds the current token reversed). -/
def tokenizeAux : List Char → List Char → List String
  | [], acc => if acc.isEmpty then [] else [String.mk acc.reverse]
  | c :: cs, acc =>
    if c = ' ' then
      (if acc.isEmpty then [] else [String.mk acc.reverse]) ++ tokenizeAux cs []
    else tokenizeAux cs (c :: acc)

/-- The whitespace tokenisation Python's parser performs on the
condition strings the engine builds (tokens are space-separated in
every condition the source constructs). -/
def tokenize (s : String) : List String := tokenizeAux s.data []

/-- Reads a digit run as a natural number. -/
def digitsToNatAux : List Char → Nat → Option Nat
  | [], acc => some acc
  | c :: cs, acc =>
    if c.isDigit then digitsToNatAux cs (acc * 10 + (c.toNat - '0'.toNat))
    else none

/-- Reads an optionally-signed integer literal, as Python `eval` does
for the interpolated numbers in a condition. -/
def parseIntToken (t : String) : Option Int :=
  match t.data with
  | [] => none
  | '-' :: rest =>
    match rest with
    | [] => none
    | _ :: _ => (digitsToNatAux rest 0).map (fun n => -(n : Int))
  | l => (digitsToNatAux l 0).map (fun n => (n : Int))

/-- Comparison operators accepted by Python `eval` on the condition
grammar the engine uses. -/
inductive CmpOp where
  | lt | le | gt | ge | eq | ne
deriving DecidableEq

/-- Maps a token to a comparison operator. -/
def cmpOfToken (t : String) : Option CmpOp :=
  if t = "<" then some CmpOp.lt
  else if t = "<=" then some CmpOp.le
  else if t = ">" then some CmpOp.gt
  else if t = ">=" then some CmpOp.ge
  else if t = "==" then some CmpOp.eq
  else if t = "!=" then some CmpOp.ne
  else none

/-- Integer comparison semantics (Python booleans compare as the
integers 0 and 1). -/
def applyCmp : CmpOp → Int → Int → Bool
  | CmpOp.lt, a, b => a < b
  | CmpOp.le, a, b => a ≤ b
  | CmpOp.gt, a, b => a > b
  | CmpOp.ge, a, b => a ≥ b
  | CmpOp.eq, a, b => a = b
  | CmpOp.ne, a, b => a ≠ b

/-- An atom of the condition grammar: an integer literal, or the
literals `True` / `False` (which Python treats as the integers 1 / 0).
Anything else — in particular a leftover `\x7bname\x7d` placeholder for a
variable missing from the snapshot, or an interpolated non-numeric
string — is not an atom, and evaluation of the whole expression
errors. -/
def parseAtomTok (t : String) : Option Int :=
  if t = "True" then some 1
  else if t = "False" then some 0
  else parseIntToken t

/-- Splits a token list on a separator token (used to layer the
`or` / `and` precedence of Python boolean expressions). -/
def splitOnTok (sep : String) : List String → List (List String)
  | [] => [[]]
  | t :: rest =>
    let r := splitOnTok sep rest
    if t = sep then [] :: r
    else
      match r with
      | g :: gs => (t :: g) :: gs
      | [] => [[t]]

/-- Evaluates a single comparison `atom op atom`; any other shape is a
syntax/name error. -/
def evalCmpTriple : List String → Option Bool
  | [a, op, b] =>
    match parseAtomTok a, cmpOfToken op, parseAtomTok b with
    | some x, some o, some y => some (applyCmp o x y)
    | _, _, _ => none
  | _ => none

/-- Evaluates a conjunction `cmp and cmp and ...`. -/
def evalAndChain (ts : List String) : Option Bool :=
  ((splitOnTok "and" ts).mapM evalCmpTriple).map (fun bs => bs.all id)

/-- Model of Python `eval` restricted to the condition grammar the
engine feeds it after variable substitution: comparisons between
numeric/boolean atoms combined with `and` / `or` (with Python's
precedence, `and` binding tighter).  Tokens are whitespace-separated,
as in every condition the engine builds.  `none` models `eval` raising
(SyntaxError on a leftover `\x7bname\x7d` placeholder, NameError on a bare
identifier, ...). -/
def pyEval (s : String) : Option Bool :=
  (((splitOnTok "or" (tokenize s)).mapM evalAndChain).map (fun bs => bs.any id))

/-- A workflow variable (`WorkflowVariable` dataclass): a name, a value
and Python's name for the value's type. -/
structure WorkflowVariable where
  name : String
  value : Value
  type : String

/-- The variable snapshot of an execution context
(`ExecutionContext.variables`). -/
abbrev Vars : Type := List (String × WorkflowVariable)

/-- `DecisionNode._evaluate_condition`'s substitution loop: each
variable's `\x7bname\x7d` placeholder is replaced by `str(value)`, in
variable insertion order. -/
def substituteVars (condition : String) (vars : Vars) : String :=
  vars.foldl
    (fun acc p => pyReplace acc ("\x7b" ++ p.1 ++ "\x7d") (pyStr p.2.value))
    condition

/-- `DecisionNode._evaluate_condition`: substitutes the variables into
the condition string and evaluates the result; **any** evaluation
failure is swallowed by the bare `except:` clause and becomes
`False`. -/
def evaluateCondition (condition : String) (vars : Vars) : Bool :=
  match pyEval (substituteVars condition vars) with
  | some b => b
  | none => false

/-- The `NodeType` enum of the source (members unused by any modelled
node class are kept for fidelity of `validate`'s type tests). -/
inductive NodeType where
  | START | END | TASK | DECISION | PARALLEL_GATEWAY | EXCLUSIVE_GATEWAY
  | TIMER | HUMAN_TASK | SERVICE_TASK | SCRIPT_TASK | SUBPROCESS
deriving DecidableEq

/-- The `ExecutionStatus` enum of the source. -/
inductive ExecutionStatus where
  | PENDING | RUNNING | COMPLETED | FAILED | CANCELLED | WAITING | SKIPPED
deriving DecidableEq

/-- An edge entry as stored in a node's `incoming` / `outgoing` lists:
the peer node id and an optional condition string. -/
structure Conn where
  nodeId : String
  condition : Option String
deriving DecidableEq

/-- The kind-specific data of each concrete `WorkflowNode` subclass.
`serviceTask` carries `service_name`, `operation`, `input_mapping` and
`output_mapping`; `humanTask` carries the assignee; `timer` carries the
duration in seconds; `parallelGateway` carries its `gateway_type`
string (`"fork"` or `"join"`). -/
inductive NodeKind where
  | start
  | end_
  | serviceTask (serviceName : String) (operation : String)
      (inputMapping : List (String × String))
      (outputMapping : List (String × String))
  | decision
  | humanTask (assignee : Option String)
  | timer (durationSeconds : Nat)
  | parallelGateway (gatewayType : String)
deriving DecidableEq

/-- The `node_type` attribute each subclass constructor passes to
`WorkflowNode.__init__`. -/
def NodeKind.nodeType : NodeKind → NodeType
  | NodeKind.start => NodeType.START
  | NodeKind.end_ => NodeType.END
  | NodeKind.serviceTask _ _ _ _ => NodeType.SERVICE_TASK
  | NodeKind.decision => NodeType.DECISION
  | NodeKind.humanTask _ => NodeType.HUMAN_TASK
  | NodeKind.timer _ => NodeType.TIMER
  | NodeKind.parallelGateway _ => NodeType.PARALLEL_GATEWAY

/-- A workflow node: id, display name, kind, and the `incoming` /
`outgoing` connection lists maintained by `add_incoming` /
`add_outgoing`. -/
structure WorkflowNode where
  nodeId : String
  name : String
  kind : NodeKind
  incoming : List Conn
  outgoing : List Conn
deriving DecidableEq

/-- Builds a fresh node the way the subclass constructors do (empty
connection lists). -/
def mkNode (nodeId name : String) (kind : NodeKind) : WorkflowNode :=
  { nodeId := nodeId, name := name, kind := kind, incoming := [], outgoing := [] }

/-- The task descriptor a `HumanTaskNode` emits when it suspends
(the generated UUID, timestamps and form fields are omitted — no claim
observes them). -/
structure TaskDesc where
  nodeId : String
  name : String
  assignee : Option String
deriving DecidableEq

/-- The dictionary a node's `execute` coroutine returns: its `status`
string, the `next_nodes` list (absent keys modelled as `[]`), the
`error` message of a failed node and the `task` descriptor of a
suspending human task. -/
structure ExecResult where
  status : String
  nextNodes : List String
  error : Option String
  task : Option TaskDesc
deriving DecidableEq

/-- The external Integration Gateway invoked by service tasks: maps
`(service_name, operation, input_data)` to a result dict or a raised
error. -/
def Gateway : Type :=
  String → String → List (String × Value) → Except String (List (String × Value))

/-- The behaviour of the source's `ServiceTaskNode._call_service` stub:
always succeeds and returns `{"result": "Service <name> executed",
"data": input_data}`. -/
def defaultGateway : Gateway := fun serviceName _ inputData =>
  Except.ok [("result", Value.str ("Service " ++ serviceName ++ " executed")),
             ("data", Value.dict inputData)]

/-- Python truthiness of an optional condition string
(`if condition:` / `if not conn.get("condition")`): `None` and the
empty string are falsy. -/
def condTruthy : Option String → Bool
  | some s => s ≠ ""
  | none => false

/-- The condition loop of `DecisionNode.execute`: walks the outgoing
connections in declaration order, skipping those without a truthy
condition, and returns the target of the first connection whose
condition evaluates true. -/
def decisionFirstMatch (vars : Vars) : List Conn → Option String
  | [] => none
  | c :: rest =>
    match c.condition with
    | some cond =>
      if cond ≠ "" then
        if evaluateCondition cond vars then some c.nodeId
        else decisionFirstMatch vars rest
      else decisionFirstMatch vars rest
    | none => decisionFirstMatch vars rest

/-- The `execute` coroutine of each node class, as a function from the
current variable snapshot to the updated snapshot and the returned
result dict (the gateway parameter supplies the service-call
behaviour). -/
def nodeExecute (g : Gateway) (node : WorkflowNode) (vars : Vars) :
    Vars × ExecResult :=
  match node.kind with
  | NodeKind.start =>
    (vars, { status := "started", nextNodes := node.outgoing.map Conn.nodeId,
             error := none, task := none })
  | NodeKind.end_ =>
    (vars, { status := "completed", nextNodes := [], error := none, task := none })
  | NodeKind.serviceTask serviceName operation inputMapping outputMapping =>
    let inputData := inputMapping.foldl
      (fun acc p =>
        match dictGet vars p.2 with
        | some wv => dictInsert acc p.1 wv.value
        | none => acc) []
    match g serviceName operation inputData with
    | Except.error e =>
      (vars, { status := "failed", nextNodes := [], error := some e, task := none })
    | Except.ok result =>
      let vars' := outputMapping.foldl
        (fun vs p =>
          match dictGet result p.1 with
          | some v => dictInsert vs p.2 { name := p.2, value := v, type := "object" }
          | none => vs) vars
      (vars', { status := "completed", nextNodes := node.outgoing.map Conn.nodeId,
                error := none, task := none })
  | NodeKind.decision =>
    match decisionFirstMatch vars node.outgoing with
    | some nid =>
      (vars, { status := "completed", nextNodes := [nid], error := none, task := none })
    | none =>
      (vars, { status := "completed",
               nextNodes := (node.outgoing.filter
                 (fun c => !condTruthy c.condition)).map Conn.nodeId,
               error := none, task := none })
  | NodeKind.humanTask assignee =>
    (vars, { status := "waiting", nextNodes := [], error := none,
             task := some { nodeId := node.nodeId, name := node.name,
                            assignee := assignee } })
  | NodeKind.timer _ =>
    (vars, { status := "completed", nextNodes := node.outgoing.map Conn.nodeId,
             error := none, task := none })
  | NodeKind.parallelGateway _ =>
    (vars, { status := "completed", nextNodes := node.outgoing.map Conn.nodeId,
             error := none, task := none })

/-- A workflow definition (`WorkflowDefinition`): id, name, version and
the node dictionary.  The declared-variables dictionary is not involved
in any claim and is omitted. -/
structure WorkflowDefinition where
  workflowId : String
  name : String
  version : String
  nodes : List (String × WorkflowNode)

/-- `WorkflowDefinition.add_node`: stores the node keyed by its id. -/
def WorkflowDefinition.addNode (wd : WorkflowDefinition) (node : WorkflowNode) :
    WorkflowDefinition :=
  { wd with nodes := dictInsert wd.nodes node.nodeId node }

/-- `WorkflowDefinition.connect_nodes(from, to, condition)`: when both
ids are keys of the node dictionary, appends an outgoing connection to
the source node and an incoming connection to the target node;
otherwise does nothing. -/
def WorkflowDefinition.connectNodes (wd : WorkflowDefinition)
    (fromNode toNode : String) (condition : Option String) : WorkflowDefinition :=
  if dictContains wd.nodes fromNode && dictContains wd.nodes toNode then
    let nodes1 := dictUpdate wd.nodes fromNode
      (fun n => { n with outgoing :=
        n.outgoing ++ [{ nodeId := toNode, condition := condition }] })
    let nodes2 := dictUpdate nodes1 toNode
      (fun n => { n with incoming :=
        n.incoming ++ [{ nodeId := fromNode, condition := condition }] })
    { wd with nodes := nodes2 }
  else wd

/-- `WorkflowDefinition.validate`: collects the diagnostics about the
start node, the end nodes and the connectivity of the intermediate
nodes, in the source's order. -/
def WorkflowDefinition.validate (wd : WorkflowDefinition) : List String :=
  let ns := wd.nodes.map Prod.snd
  let startNodes := ns.filter (fun n => n.kind.nodeType = NodeType.START)
  let startErrors :=
    if startNodes.isEmpty then ["Workflow deve ter um nó de início"]
    else if startNodes.length > 1 then ["Workflow deve ter apenas um nó de início"]
    else []
  let endNodes := ns.filter (fun n => n.kind.nodeType = NodeType.END)
  let endErrors :=
    if endNodes.isEmpty then ["Workflow deve ter pelo menos um nó de fim"] else []
  let connErrors := (ns.map (fun n =>
    if n.kind.nodeType ≠ NodeType.START ∧ n.kind.nodeType ≠ NodeType.END then
      (if n.incoming.isEmpty then
        ["Nó " ++ n.name ++ " não tem conexões de entrada"] else []) ++
      (if n.outgoing.isEmpty ∧ n.kind.nodeType ≠ NodeType.END then
        ["Nó " ++ n.name ++ " não tem conexões de saída"] else [])
    else [])).flatten
  startErrors ++ endErrors ++ connErrors

/-- A node execution record (`NodeExecution`): the terminal status of
the visit and the error message of a failed visit (timestamps and data
snapshots omitted).  The source keys records by node id, so a re-entered
node overwrites its previous record. -/
structure NodeExecution where
  nodeId : String
  status : ExecutionStatus
  errorMessage : Option String
deriving DecidableEq

/-- The mutable state of one `WorkflowExecution`: the execution status,
the shared variable snapshot, the node-execution records, the waiting
human tasks, whether `completed_at` has been set, and the trace of
nodes passed to `_execute_node` (the source logs each entry). -/
structure ExecState where
  status : ExecutionStatus
  vars : Vars
  nodeExecutions : List (String × NodeExecution)
  waitingTasks : List (String × TaskDesc)
  completed : Bool
  trace : List String

/-- The record `_execute_node` leaves for a node, determined by the
returned status string.  (The transient RUNNING record the source
stores on entry is overwritten before `_execute_node` returns and is
not separately modelled.) -/
def recordOf (nodeId : String) (r : ExecResult) : NodeExecution :=
  if r.status = "failed" then
    { nodeId := nodeId, status := ExecutionStatus.FAILED, errorMessage := r.error }
  else if r.status = "waiting" then
    { nodeId := nodeId, status := ExecutionStatus.WAITING, errorMessage := none }
  else
    { nodeId := nodeId, status := ExecutionStatus.COMPLETED, errorMessage := none }

/-- `_execute_node`'s update of the waiting-task dictionary: a task is
registered exactly when the node reported `waiting` and supplied a task
descriptor. -/
def waitingTasksAfter (wt : List (String × TaskDesc)) (nodeId : String)
    (r : ExecResult) : List (String × TaskDesc) :=
  match r.task with
  | some t => if r.status = "waiting" then dictInsert wt nodeId t else wt
  | none => wt

/-- `WorkflowExecution._execute_node`: runs the node's `execute`
coroutine against the shared context, stores the node-execution record
and any waiting task, and returns the result dict. -/
def executeNode (g : Gateway) (node : WorkflowNode) (st : ExecState) :
    ExecState × ExecResult :=
  let vr := nodeExecute g node st.vars
  ({ status := st.status,
     vars := vr.1,
     nodeExecutions := dictInsert st.nodeExecutions node.nodeId
       (recordOf node.nodeId vr.2),
     waitingTasks := waitingTasksAfter st.waitingTasks node.nodeId vr.2,
     completed := st.completed,
     trace := st.trace ++ [node.nodeId] }, vr.2)

/-- `WorkflowExecution._continue_execution`, defunctionalised: the
source advances the graph by sequential recursive calls (`for
next_node_id in next_nodes: await self._continue_execution(...)`);
here the pending calls are an explicit depth-first work list, visited
in exactly the source's order.  An unknown node id is skipped (the
source only logs it); an END node is executed and the execution is
marked COMPLETED; a failed node marks the execution FAILED and stops
that token (its successors are not scheduled, but the rest of the work
list still runs, as in the source); a waiting node parks its token.
`fuel` bounds the number of visited nodes and only guards against
cyclic graphs (the spec assumes acyclic ones). -/
def runNodes (g : Gateway) (wd : WorkflowDefinition) :
    Nat → List String → ExecState → ExecState
  | 0, _, st => st
  | _ + 1, [], st => st
  | fuel + 1, nodeId :: rest, st =>
    match dictGet wd.nodes nodeId with
    | none => runNodes g wd fuel rest st
    | some node =>
      if node.kind.nodeType = NodeType.END then
        let st1 := (executeNode g node st).1
        runNodes g wd fuel rest
          { st1 with status := ExecutionStatus.COMPLETED, completed := true }
      else
        let pr := executeNode g node st
        if pr.2.status = "failed" then
          runNodes g wd fuel rest { pr.1 with status := ExecutionStatus.FAILED }
        else if pr.2.status = "waiting" then
          runNodes g wd fuel rest pr.1
        else
          runNodes g wd fuel (pr.2.nextNodes ++ rest) pr.1

/-- `_continue_execution` on a single node. -/
def continueExecution (g : Gateway) (wd : WorkflowDefinition) (fuel : Nat)
    (nodeId : String) (st : ExecState) : ExecState :=
  runNodes g wd fuel [nodeId] st

/-- `WorkflowExecution.start`: sets the status to RUNNING, finds the
START node (raising when there is none), executes it, and continues
into its successors. -/
def startExecution (g : Gateway) (wd : WorkflowDefinition) (fuel : Nat)
    (initVars : Vars) : Except String ExecState :=
  let st0 : ExecState :=
    { status := ExecutionStatus.RUNNING, vars := initVars,
      nodeExecutions := [], waitingTasks := [], completed := false, trace := [] }
  match (wd.nodes.map Prod.snd).filter
      (fun n => n.kind.nodeType = NodeType.START) with
  | [] => Except.error "Workflow não tem nó de início"
  | startNode :: _ =>
    let pr := executeNode g startNode st0
    Except.ok (runNodes g wd fuel pr.2.nextNodes pr.1)

/-- `WorkflowExecution.complete_human_task`: fails when the node has no
waiting task or is not a human task; otherwise merges the supplied
answers into the variables (via `HumanTaskNode.complete_task`), marks
the node's record COMPLETED, removes the waiting task and continues
into the node's outgoing edges. -/
def completeHumanTask (g : Gateway) (wd : WorkflowDefinition) (fuel : Nat)
    (nodeId : String) (taskData : List (String × Value)) (st : ExecState) :
    Except String ExecState :=
  if dictContains st.waitingTasks nodeId = false then
    Except.error ("Tarefa " ++ nodeId ++ " não encontrada ou já completada")
  else
    match dictGet wd.nodes nodeId with
    | none => Except.error ("KeyError: " ++ nodeId)
    | some node =>
      match node.kind with
      | NodeKind.humanTask _ =>
        let vars' := taskData.foldl
          (fun vs p => dictInsert vs p.1
            { name := p.1, value := p.2, type := pyTypeName p.2 }) st.vars
        let st1 : ExecState :=
          { st with
            vars := vars',
            nodeExecutions := dictInsert st.nodeExecutions nodeId
              { nodeId := nodeId, status := ExecutionStatus.COMPLETED,
                errorMessage := none },
            waitingTasks := dictRemove st.waitingTasks nodeId }
        Except.ok (runNodes g wd fuel (node.outgoing.map Conn.nodeId) st1)
      | _ => Except.error ("Nó " ++ nodeId ++ " não é uma tarefa humana")

/-- The workflow engine (`WorkflowEngine`): the registry of validated
definitions and the table of executions, each paired with the
definition snapshot it runs against. -/
structure WorkflowEngine where
  workflowDefinitions : List (String × WorkflowDefinition)
  executions : List (String × (WorkflowDefinition × ExecState))

/-- An engine with empty registries. -/
def emptyEngine : WorkflowEngine :=
  { workflowDefinitions := [], executions := [] }

/-- `WorkflowEngine.register_workflow`: raises listing the validation
diagnostics when there are any; otherwise stores the definition keyed
by its id. -/
def registerWorkflow (e : WorkflowEngine) (wd : WorkflowDefinition) :
    Except String WorkflowEngine :=
  let errors := wd.validate
  if errors.isEmpty then
    Except.ok { e with
      workflowDefinitions := dictInsert e.workflowDefinitions wd.workflowId wd }
  else
    Except.error ("Workflow inválido: " ++ String.intercalate ", " errors)

/-- `WorkflowEngine.start_workflow`: raises for an unregistered
workflow id; otherwise seeds the variables (wrapping raw values the way
the source does), starts the execution and stores it.  The execution id
is supplied by the caller (the source draws a UUID). -/
def startWorkflow (g : Gateway) (fuel : Nat) (e : WorkflowEngine)
    (workflowId _userId _companyId executionId : String)
    (initialVariables : List (String × Value)) :
    Except String (WorkflowEngine × String) :=
  match dictGet e.workflowDefinitions workflowId with
  | none => Except.error ("Workflow " ++ workflowId ++ " não encontrado")
  | some wd =>
    let initVars : Vars := initialVariables.foldl
      (fun vs p => dictInsert vs p.1
        { name := p.1, value := p.2, type := pyTypeName p.2 }) []
    match startExecution g wd fuel initVars with
    | Except.error m => Except.error m
    | Except.ok st =>
      Except.ok ({ e with
        executions := dictInsert e.executions executionId (wd, st) }, executionId)

/-- `WorkflowEngine.complete_task`: raises for an unknown execution id,
otherwise delegates to the execution's `complete_human_task` and stores
the updated execution. -/
def completeTask (g : Gateway) (fuel : Nat) (e : WorkflowEngine)
    (executionId nodeId : String) (taskData : List (String × Value)) :
    Except String (WorkflowEngine × ExecState) :=
  match dictGet e.executions executionId with
  | none => Except.error ("Execução " ++ executionId ++ " não encontrada")
  | some (wd, st) =>
    match completeHumanTask g wd fuel nodeId taskData st with
    | Except.error m => Except.error m
    | Except.ok st' =>
      Except.ok ({ e with
        executions := dictInsert e.executions executionId (wd, st') }, st')

/-- Unwraps a successful start (used only to name concrete runs whose
success is itself proved). -/
def exceptGetD (x : Except String ExecState) (d : ExecState) : ExecState :=
  match x with
  | Except.ok st => st
  | Except.error _ => d

/-- The empty execution state used as the junk default of
`exceptGetD`. -/
def junkState : ExecState :=
  { status := ExecutionStatus.PENDING, vars := [], nodeExecutions := [],
    waitingTasks := [], completed := false, trace := [] }

/-- Wraps a raw value as the engine does. -/
def mkVar (n : String) (v : Value) : WorkflowVariable :=
  { name := n, value := v, type := pyTypeName v }

/-- A decision node with the Scenario E condition and a default edge,
as configured through `add_outgoing`. -/
def c1Decision : WorkflowNode :=
  { nodeId := "credit_decision", name := "Credit Decision",
    kind := NodeKind.decision, incoming := [],
    outgoing := [{ nodeId := "review", condition := some "{score} < 700" },
                 { nodeId := "approve", condition := none }] }

/-- A workflow `start → decision` whose decision has a single
conditional edge to `end` and no default edge. -/
def c2Def : WorkflowDefinition :=
  let wd : WorkflowDefinition :=
    { workflowId := "c2", name := "C2", version := "1.0", nodes := [] }
  let wd := wd.addNode (mkNode "start" "Start" NodeKind.start)
  let wd := wd.addNode (mkNode "dec" "Decision" NodeKind.decision)
  let wd := wd.addNode (mkNode "end" "End" NodeKind.end_)
  let wd := wd.connectNodes "start" "dec" none
  let wd := wd.connectNodes "dec" "end" (some "{score} >= 700")
  wd

/-- The run of `c2Def` with `score = 650`: the decision's only
condition is false and there is no default edge. -/
def runC2 : ExecState :=
  exceptGetD
    (startExecution defaultGateway c2Def 10 [("score", mkVar "score" (Value.int 650))])
    junkState

/-- Scenario C: `start → fork → (A, B) → join → end` with two service
tasks. -/
def c3Def : WorkflowDefinition :=
  let wd : WorkflowDefinition :=
    { workflowId := "c3", name := "C3", version := "1.0", nodes := [] }
  let wd := wd.addNode (mkNode "start" "Start" NodeKind.start)
  let wd := wd.addNode (mkNode "fork" "Fork" (NodeKind.parallelGateway "fork"))
  let wd := wd.addNode (mkNode "A" "Task A" (NodeKind.serviceTask "svcA" "op" [] []))
  let wd := wd.addNode (mkNode "B" "Task B" (NodeKind.serviceTask "svcB" "op" [] []))
  let wd := wd.addNode (mkNode "join" "Join" (NodeKind.parallelGateway "join"))
  let wd := wd.addNode (mkNode "end" "End" NodeKind.end_)
  let wd := wd.connectNodes "start" "fork" none
  let wd := wd.connectNodes "fork" "A" none
  let wd := wd.connectNodes "fork" "B" none
  let wd := wd.connectNodes "A" "join" none
  let wd := wd.connectNodes "B" "join" none
  let wd := wd.connectNodes "join" "end" none
  wd

/-- The run of Scenario C. -/
def runC3 : ExecState :=
  exceptGetD (startExecution defaultGateway c3Def 20 []) junkState

/-- The join node of `c3Def` as it stands after wiring: two incoming
edges (its `expectedArrivals` per the spec) and one outgoing edge. -/
def c3JoinNode : WorkflowNode :=
  { nodeId := "join", name := "Join", kind := NodeKind.parallelGateway "join",
    incoming := [{ nodeId := "A", condition := none },
                 { nodeId := "B", condition := none }],
    outgoing := [{ nodeId := "end", condition := none }] }

/-- A forked workflow in which one branch reaches END while the sibling
branch parks at a human task: `start → fork → (endA, review)` with
`review → endB`. -/
def c4Def : WorkflowDefinition :=
  let wd : WorkflowDefinition :=
    { workflowId := "c4", name := "C4", version := "1.0", nodes := [] }
  let wd := wd.addNode (mkNode "start" "Start" NodeKind.start)
  let wd := wd.addNode (mkNode "fork" "Fork" (NodeKind.parallelGateway "fork"))
  let wd := wd.addNode (mkNode "endA" "End A" NodeKind.end_)
  let wd := wd.addNode (mkNode "review" "Review" (NodeKind.humanTask (some "manager")))
  let wd := wd.addNode (mkNode "endB" "End B" NodeKind.end_)
  let wd := wd.connectNodes "start" "fork" none
  let wd := wd.connectNodes "fork" "endA" none
  let wd := wd.connectNodes "fork" "review" none
  let wd := wd.connectNodes "review" "endB" none
  wd

/-- The run of `c4Def`. -/
def runC4 : ExecState :=
  exceptGetD (startExecution defaultGateway c4Def 20 []) junkState

/-- Scenario B: `start → credit_decision → {manual_review if score<700,
end otherwise}` with `manual_review → end`. -/
def c5Def : WorkflowDefinition :=
  let wd : WorkflowDefinition :=
    { workflowId := "credit_approval", name := "Aprovação de Crédito",
      version := "1.0", nodes := [] }
  let wd := wd.addNode (mkNode "start" "Start" NodeKind.start)
  let wd := wd.addNode (mkNode "credit_decision" "Credit Decision" NodeKind.decision)
  let wd := wd.addNode
    (mkNode "manual_review" "Manual Review" (NodeKind.humanTask (some "manager")))
  let wd := wd.addNode (mkNode "end" "End" NodeKind.end_)
  let wd := wd.connectNodes "start" "credit_decision" none
  let wd := wd.connectNodes "credit_decision" "manual_review" (some "{score} < 700")
  let wd := wd.connectNodes "credit_decision" "end" (some "{score} >= 700")
  let wd := wd.connectNodes "manual_review" "end" none
  wd

/-- The `manual_review` node of `c5Def` after wiring. -/
def c5ManualNode : WorkflowNode :=
  { nodeId := "manual_review", name := "Manual Review",
    kind := NodeKind.humanTask (some "manager"),
    incoming := [{ nodeId := "credit_decision", condition := some "{score} < 700" }],
    outgoing := [{ nodeId := "end", condition := none }] }

/-- The run of Scenario B with `score = 650`. -/
def runC5 : ExecState :=
  exceptGetD
    (startExecution defaultGateway c5Def 10 [("score", mkVar "score" (Value.int 650))])
    junkState

/-- A gateway that fails service `failsvc` and otherwise behaves like
the stub. -/
def failGateway : Gateway := fun serviceName operation inputData =>
  if serviceName = "failsvc" then Except.error "boom"
  else defaultGateway serviceName operation inputData

/-- A forked workflow whose first branch fails and whose sibling branch
is a plain END: `start → fork → (A, endB)` where `A` is a service task
on the failing service. -/
def c6Def : WorkflowDefinition :=
  let wd : WorkflowDefinition :=
    { workflowId := "c6", name := "C6", version := "1.0", nodes := [] }
  let wd := wd.addNode (mkNode "start" "Start" NodeKind.start)
  let wd := wd.addNode (mkNode "fork" "Fork" (NodeKind.parallelGateway "fork"))
  let wd := wd.addNode (mkNode "A" "Task A" (NodeKind.serviceTask "failsvc" "op" [] []))
  let wd := wd.addNode (mkNode "endB" "End B" NodeKind.end_)
  let wd := wd.connectNodes "start" "fork" none
  let wd := wd.connectNodes "fork" "A" none
  let wd := wd.connectNodes "fork" "endB" none
  wd

/-- The run of `c6Def` against the failing gateway. -/
def runC6 : ExecState :=
  exceptGetD (startExecution failGateway c6Def 20 []) junkState

/-- A definition holding exactly one START and one END node with no
edges at all. -/
def c7StartEnd : WorkflowDefinition :=
  let wd : WorkflowDefinition :=
    { workflowId := "c7", name := "C7", version := "1.0", nodes := [] }
  let wd := wd.addNode (mkNode "start" "Start" NodeKind.start)
  let wd := wd.addNode (mkNode "end" "End" NodeKind.end_)
  wd

/-- A definition with no nodes at all: both the START and the END
invariant are violated. -/
def c7Empty : WorkflowDefinition :=
  { workflowId := "c7e", name := "C7E", version := "1.0", nodes := [] }

/-- Modelled from the spec: the validity condition §3/§8 claims
`validate()` decides — exactly one START node, at least one END node,
every non-START node has at least one incoming edge, and every non-END
node has at least one outgoing edge.  (Stated as a boolean so that a
counterexample can evaluate it; this definition follows the spec's
words, deliberately not the code.) -/
def specValidOK (wd : WorkflowDefinition) : Bool :=
  let ns := wd.nodes.map Prod.snd
  ((ns.filter (fun n => n.kind.nodeType = NodeType.START)).length = 1 : Bool)
    && ((ns.filter (fun n => n.kind.nodeType = NodeType.END)).length ≥ 1 : Bool)
    && ns.all (fun n =>
      (n.kind.nodeType = NodeType.START : Bool) || !n.incoming.isEmpty)
    && ns.all (fun n =>
      (n.kind.nodeType = NodeType.END : Bool) || !n.outgoing.isEmpty)

/-- A definition with a START but no END node (Scenario D). -/
def c8NoEndDef : WorkflowDefinition :=
  let wd : WorkflowDefinition :=
    { workflowId := "noend", name := "No End", version := "1.0", nodes := [] }
  let wd := wd.addNode (mkNode "start" "Start" NodeKind.start)
  wd

/-- The decision node of `c2Def` after wiring. -/
def c2DecNode : WorkflowNode :=
  { nodeId := "dec", name := "Decision", kind := NodeKind.decision,
    incoming := [{ nodeId := "start", condition := none }],
    outgoing := [{ nodeId := "end", condition := some "{score} >= 700" }] }

/-- The `endA` node of `c4Def` after wiring. -/
def c4EndANode : WorkflowNode :=
  { nodeId := "endA", name := "End A", kind := NodeKind.end_,
    incoming := [{ nodeId := "fork", condition := none }], outgoing := [] }

/-- The failing service-task node of `c6Def` after wiring. -/
def c6ANode : WorkflowNode :=
  { nodeId := "A", name := "Task A",
    kind := NodeKind.serviceTask "failsvc" "op" [] [],
    incoming := [{ nodeId := "fork", condition := none }],
    outgoing := [] }

/- ————————————————————————————————————————————————————————————————
   Helper lemmas about the dictionary embedding and the decision loop.
   ———————————————————————————————————————————————————————————————— -/

/-- Reading back the key just written. -/
theorem dictGet_dictInsert_self {α : Type} (m : List (String × α)) (k : String)
    (v : α) : dictGet (dictInsert m k v) k = some v := by
  induction m with
  | nil => simp [dictInsert, dictGet]
  | cons p rest ih =>
    by_cases h : p.1 = k
    · simp [dictInsert, dictGet, h]
    · simp [dictInsert, dictGet, h, ih]

/-- The key just written is present. -/
theorem dictContains_dictInsert_self {α : Type} (m : List (String × α))
    (k : String) (v : α) : dictContains (dictInsert m k v) k = true := by
  rw [dictContains, dictGet_dictInsert_self]; rfl

/-- Reading the key whose value was just mutated in place. -/
theorem dictGet_dictUpdate_self {α : Type} (m : List (String × α)) (k : String)
    (f : α → α) : dictGet (dictUpdate m k f) k = (dictGet m k).map f := by
  induction m with
  | nil => simp [dictUpdate, dictGet]
  | cons p rest ih =>
    by_cases h : p.1 = k
    · simp [dictUpdate, dictGet, h]
    · simp [dictUpdate, dictGet, h, ih]

/-- Mutating one key leaves the other keys unchanged. -/
theorem dictGet_dictUpdate_ne {α : Type} (m : List (String × α)) (k k' : String)
    (f : α → α) (h : k' ≠ k) :
    dictGet (dictUpdate m k f) k' = dictGet m k' := by
  induction m with
  | nil => rfl
  | cons p rest ih =>
    by_cases hp : p.1 = k
    · simp [dictUpdate, dictGet, hp, h.symm]
    · simp only [dictUpdate, if_neg hp, dictGet]
      by_cases hq : p.1 = k'
      · simp [hq]
      · simp [hq, ih]

/-- An absent key reads as `none`. -/
theorem dictGet_eq_none_of_contains_false {α : Type} (m : List (String × α))
    (k : String) (h : dictContains m k = false) : dictGet m k = none := by
  unfold dictContains at h
  cases hg : dictGet m k with
  | none => rfl
  | some v => rw [hg] at h; simp at h

/-- The decision loop of `DecisionNode.execute` returns the target of
the first outgoing connection whose condition is truthy and evaluates
true — i.e. it is `List.find?` on the connection list in declaration
order. -/
theorem decisionFirstMatch_eq_find (vars : Vars) (l : List Conn) :
    decisionFirstMatch vars l =
      (l.find? (fun c => condTruthy c.condition
        && evaluateCondition (c.condition.getD "") vars)).map Conn.nodeId := by
  induction l with
  | nil => rfl
  | cons c rest ih =>
    cases h : c.condition with
    | none => simp [decisionFirstMatch, List.find?, condTruthy, h, ih]
    | some cond =>
      by_cases hne : cond = ""
      · subst hne
        simp [decisionFirstMatch, List.find?, condTruthy, h, ih]
      · by_cases he : evaluateCondition cond vars
        · simp [decisionFirstMatch, List.find?, condTruthy, h, hne, he]
        · simp [decisionFirstMatch, List.find?, condTruthy, h, hne, he, ih]

/- ————————————————————————————————————————————————————————————————
   Claim theorems.
   ———————————————————————————————————————————————————————————————— -/

/-- C1 (counterexample): the claim that evaluation of a condition
referencing an absent variable fails with `InvalidExpression` and is
never silently treated as false is refuted: `_evaluate_condition` on
the Scenario E condition `"\x7bscore\x7d < 700"` with `score` absent from
the variables returns `false`, and a DECISION node carrying that
condition completes normally, silently routing to its default edge
`approve` instead of failing. -/
theorem C1_counterexample :
    evaluateCondition "{score} < 700" [] = false ∧
    (nodeExecute defaultGateway c1Decision []).2 =
      { status := "completed", nextNodes := ["approve"], error := none,
        task := none } :=
  ⟨rfl, rfl⟩

/-- C1 (amended): condition evaluation never fails: whenever the
substituted expression does not evaluate (absent variable leaving a
`\x7bname\x7d` placeholder, or syntax outside the supported grammar), the
bare `except:` clause of `_evaluate_condition` swallows the error and
the condition is silently treated as `false`. -/
theorem C1_invalid_condition_is_false (condition : String) (vars : Vars)
    (h : pyEval (substituteVars condition vars) = none) :
    evaluateCondition condition vars = false := by
  unfold evaluateCondition
  rw [h]

/-- C1 (witness): the amended theorem applied to the Scenario E
condition with `score` absent. -/
theorem C1_invalid_condition_is_false_witness :
    pyEval (substituteVars "{score} < 700" []) = none ∧
    evaluateCondition "{score} < 700" [] = false :=
  ⟨rfl, C1_invalid_condition_is_false "{score} < 700" [] rfl⟩

/-- C2 (counterexample): the claim that a DECISION with no matching
condition and no default edge fails with `NoViableRoute` is refuted:
in the run of `start → dec` where `dec`'s only condition
(`"\x7bscore\x7d >= 700"` with `score = 650`) is false and `dec` has no
default edge, the decision node completes with an empty successor list
and the execution simply stalls — its status stays RUNNING and never
becomes FAILED. -/
theorem C2_counterexample :
    (nodeExecute defaultGateway c2DecNode
        [("score", mkVar "score" (Value.int 650))]).2 =
      { status := "completed", nextNodes := [], error := none, task := none } ∧
    runC2.status = ExecutionStatus.RUNNING ∧
    runC2.status ≠ ExecutionStatus.FAILED ∧
    runC2.trace = ["start", "dec"] :=
  ⟨rfl, rfl, by decide, rfl⟩

/-- C2 (amended): a DECISION node always completes.  It evaluates its
outgoing connections in declaration order and routes to the target of
the first connection whose (truthy) condition evaluates true; when no
condition matches it routes to all condition-free edges at once
(possibly none) — it never fails, and in particular never raises
`NoViableRoute` when no default edge exists. -/
theorem C2_decision_routing (g : Gateway) (node : WorkflowNode) (vars : Vars)
    (h : node.kind = NodeKind.decision) :
    (nodeExecute g node vars).2.status = "completed" ∧
    (nodeExecute g node vars).2.nextNodes =
      (match node.outgoing.find? (fun c => condTruthy c.condition
          && evaluateCondition (c.condition.getD "") vars) with
       | some c => [c.nodeId]
       | none => (node.outgoing.filter
           (fun c => !condTruthy c.condition)).map Conn.nodeId) := by
  have hd := decisionFirstMatch_eq_find vars node.outgoing
  constructor
  · simp only [nodeExecute, h]
    cases decisionFirstMatch vars node.outgoing <;> rfl
  · simp only [nodeExecute, h, hd]
    cases List.find? (fun c => condTruthy c.condition
        && evaluateCondition (c.condition.getD "") vars) node.outgoing <;> rfl

/-- C2 (witness): the amended theorem applied to the decision node of
`c2Def` under `score = 650`: no condition matches and there is no
default edge, so the node completes with no successors. -/
theorem C2_decision_routing_witness :
    (nodeExecute defaultGateway c2DecNode
        [("score", mkVar "score" (Value.int 650))]).2.status = "completed" ∧
    (nodeExecute defaultGateway c2DecNode
        [("score", mkVar "score" (Value.int 650))]).2.nextNodes = [] :=
  ⟨(C2_decision_routing defaultGateway c2DecNode
      [("score", mkVar "score" (Value.int 650))] rfl).1,
   ((C2_decision_routing defaultGateway c2DecNode
      [("score", mkVar "score" (Value.int 650))] rfl).2).trans (by rfl)⟩

/-- C3 (counterexample): the claim that a PARALLEL_JOIN with
`expectedArrivals = 2` never releases a successor before 2 distinct
incoming edges have delivered a token, and releases at most once, is
refuted by the Scenario C run `start → fork → (A, B) → join → end`:
the trace shows the join executing — and releasing its successor
`end` — immediately after branch `A` alone arrived, and again after
branch `B`, so it released before the barrier count was reached and
released twice. -/
theorem C3_counterexample :
    runC3.trace = ["start", "fork", "A", "join", "end", "B", "join", "end"] ∧
    dictGet c3Def.nodes "join" = some c3JoinNode ∧
    c3JoinNode.incoming.length = 2 ∧
    runC3.status = ExecutionStatus.COMPLETED :=
  ⟨rfl, rfl, rfl, rfl⟩

/-- C3 (amended): `ParallelGatewayNode.execute` keeps no arrival
state at all: for any gateway node (fork or join alike) and any
variable snapshot, a single execution immediately completes and
releases one successor token per outgoing edge — a join therefore
passes every arriving token straight through instead of enforcing a
barrier. -/
theorem C3_join_no_barrier (g : Gateway) (node : WorkflowNode) (t : String)
    (vars : Vars) (h : node.kind = NodeKind.parallelGateway t) :
    nodeExecute g node vars =
      (vars, { status := "completed", nextNodes := node.outgoing.map Conn.nodeId,
               error := none, task := none }) := by
  rw [nodeExecute, h]

/-- C3 (witness): the amended theorem applied to the join node of
Scenario C: one arrival already yields the successor `end`. -/
theorem C3_join_no_barrier_witness :
    nodeExecute defaultGateway c3JoinNode [] =
      ([], { status := "completed", nextNodes := ["end"], error := none,
             task := none }) :=
  (C3_join_no_barrier defaultGateway c3JoinNode "join" [] rfl).trans (by rfl)

/-- C4 (counterexample): the claim that an Execution is COMPLETED only
when every live token has terminated at an END node is refuted: in the
run of `start → fork → (endA, review)` the execution reports COMPLETED
(set when the first branch reached `endA`) while the sibling token is
still parked WAITING at the human task `review`. -/
theorem C4_counterexample :
    runC4.status = ExecutionStatus.COMPLETED ∧
    runC4.waitingTasks.map Prod.fst = ["review"] ∧
    dictGet runC4.nodeExecutions "review" =
      some { nodeId := "review", status := ExecutionStatus.WAITING,
             errorMessage := none } ∧
    runC4.trace = ["start", "fork", "endA", "review"] :=
  ⟨rfl, rfl, rfl, rfl⟩

/-- C4 (amended): `_continue_execution` marks the whole Execution
COMPLETED as soon as **any** token reaches an END node, regardless of
the sibling tokens still on the work list and regardless of the tasks
already waiting; the siblings continue to run afterwards.  (One-step
law of the execution relation at an END node.) -/
theorem C4_end_marks_completed (g : Gateway) (wd : WorkflowDefinition)
    (fuel : Nat) (nodeId : String) (rest : List String) (st : ExecState)
    (node : WorkflowNode)
    (h1 : dictGet wd.nodes nodeId = some node)
    (h2 : node.kind.nodeType = NodeType.END) :
    runNodes g wd (fuel + 1) (nodeId :: rest) st =
      runNodes g wd fuel rest
        { (executeNode g node st).1 with
          status := ExecutionStatus.COMPLETED, completed := true } := by
  simp only [runNodes, h1, h2, if_pos]

/-- C4 (witness): the amended theorem applied to the `endA` node of
`c4Def` from the empty pending state. -/
theorem C4_end_marks_completed_witness :
    runNodes defaultGateway c4Def 1 ["endA"] junkState =
      runNodes defaultGateway c4Def 0 []
        { (executeNode defaultGateway c4EndANode junkState).1 with
          status := ExecutionStatus.COMPLETED, completed := true } :=
  C4_end_marks_completed defaultGateway c4Def 0 "endA" [] junkState
    c4EndANode rfl rfl

/-- C5 (counterexample): the claim that an Execution whose only live
token is parked at a HUMAN_TASK has status WAITING is refuted by
Scenario B (`start → credit_decision → manual_review`, `score = 650`):
the run parks at `manual_review` (the pending task is recorded) but the
Execution's status stays RUNNING — it is never set to WAITING. -/
theorem C5_counterexample :
    runC5.status = ExecutionStatus.RUNNING ∧
    runC5.status ≠ ExecutionStatus.WAITING ∧
    runC5.waitingTasks.map Prod.fst = ["manual_review"] ∧
    dictGet runC5.nodeExecutions "manual_review" =
      some { nodeId := "manual_review", status := ExecutionStatus.WAITING,
             errorMessage := none } :=
  ⟨rfl,
   by
     have h : runC5.status = ExecutionStatus.RUNNING := rfl
     rw [h]; decide,
   rfl, rfl⟩

/-- C5 (amended): when a token reaches a HUMAN_TASK node the engine
records the node WAITING and registers the pending task, but leaves
the Execution's status untouched (so a running Execution stays
RUNNING rather than becoming WAITING), and the remaining work list
continues. -/
theorem C5_human_task_keeps_status (g : Gateway) (wd : WorkflowDefinition)
    (fuel : Nat) (nodeId : String) (rest : List String) (st : ExecState)
    (node : WorkflowNode) (a : Option String)
    (h1 : dictGet wd.nodes nodeId = some node)
    (h2 : node.kind = NodeKind.humanTask a) :
    runNodes g wd (fuel + 1) (nodeId :: rest) st =
      runNodes g wd fuel rest (executeNode g node st).1 ∧
    (executeNode g node st).1.status = st.status ∧
    dictContains (executeNode g node st).1.waitingTasks node.nodeId = true := by
  refine ⟨?_, rfl, ?_⟩
  · have hty : node.kind.nodeType = NodeType.HUMAN_TASK := by rw [h2]; rfl
    have hw : (executeNode g node st).2.status = "waiting" := by
      simp only [executeNode, nodeExecute, h2]
    simp only [runNodes, h1, hty, hw]
    rfl
  · simp only [executeNode, nodeExecute, h2, waitingTasksAfter]
    simp [dictContains_dictInsert_self]

/-- C5 (witness): the amended theorem applied to the `manual_review`
node of Scenario B. -/
theorem C5_human_task_keeps_status_witness :
    (runNodes defaultGateway c5Def 1 ["manual_review"] junkState =
      runNodes defaultGateway c5Def 0 []
        (executeNode defaultGateway c5ManualNode junkState).1) ∧
    (executeNode defaultGateway c5ManualNode junkState).1.status =
      junkState.status ∧
    dictContains (executeNode defaultGateway c5ManualNode junkState).1.waitingTasks
      "manual_review" = true :=
  C5_human_task_keeps_status defaultGateway c5Def 0 "manual_review" []
    junkState c5ManualNode (some "manager") rfl rfl

/-- C6 (counterexample): the claim that a node failure makes the
Execution FAILED, cancels sibling tokens and is never overwritten is
refuted by the run of `start → fork → (A, endB)` with `A` failing:
node `A`'s record is FAILED with its error, yet the sibling token at
`endB` still advanced after the failure (it appears later in the
trace) and its END overwrote the Execution's status with COMPLETED, so
the final status is not FAILED. -/
theorem C6_counterexample :
    runC6.status = ExecutionStatus.COMPLETED ∧
    runC6.status ≠ ExecutionStatus.FAILED ∧
    dictGet runC6.nodeExecutions "A" =
      some { nodeId := "A", status := ExecutionStatus.FAILED,
             errorMessage := some "boom" } ∧
    runC6.trace = ["start", "fork", "A", "endB"] :=
  ⟨rfl,
   by
     have h : runC6.status = ExecutionStatus.COMPLETED := rfl
     rw [h]; decide,
   rfl, rfl⟩

/-- C6 (amended): when a node's execution fails, the engine sets the
Execution's status to FAILED and stops that token (its successors are
not scheduled), recording the failure and its error message on the
node's execution record — but the sibling tokens already on the work
list are *not* cancelled: they continue executing (and, per the
counterexample, can overwrite FAILED with COMPLETED). -/
theorem C6_failure_stops_token_only (g : Gateway) (wd : WorkflowDefinition)
    (fuel : Nat) (nodeId : String) (rest : List String) (st : ExecState)
    (node : WorkflowNode)
    (h1 : dictGet wd.nodes nodeId = some node)
    (h2 : node.kind.nodeType ≠ NodeType.END)
    (h3 : (executeNode g node st).2.status = "failed") :
    runNodes g wd (fuel + 1) (nodeId :: rest) st =
      runNodes g wd fuel rest
        { (executeNode g node st).1 with status := ExecutionStatus.FAILED } ∧
    dictGet (executeNode g node st).1.nodeExecutions node.nodeId =
      some { nodeId := node.nodeId, status := ExecutionStatus.FAILED,
             errorMessage := (executeNode g node st).2.error } := by
  constructor
  · simp only [runNodes, h1, if_neg h2, h3, if_pos]
  · have he : (executeNode g node st).1.nodeExecutions =
        dictInsert st.nodeExecutions node.nodeId
          (recordOf node.nodeId (executeNode g node st).2) := rfl
    rw [he, recordOf, if_pos h3, dictGet_dictInsert_self]

/-- C6 (witness): the amended theorem applied to the failing service
task `A` of `c6Def` under the failing gateway. -/
theorem C6_failure_stops_token_only_witness :
    (runNodes failGateway c6Def 1 ["A"] junkState =
      runNodes failGateway c6Def 0 []
        { (executeNode failGateway c6ANode junkState).1 with
          status := ExecutionStatus.FAILED }) ∧
    dictGet (executeNode failGateway c6ANode junkState).1.nodeExecutions "A" =
      some { nodeId := "A", status := ExecutionStatus.FAILED,
             errorMessage := (executeNode failGateway c6ANode junkState).2.error } :=
  C6_failure_stops_token_only failGateway c6Def 0 "A" [] junkState c6ANode
    rfl (by decide) rfl

/-- The start-node diagnostics of `validate` are empty exactly when
there is exactly one START node. -/
theorem startPiece_eq_nil_iff (l : List WorkflowNode) :
    (if l.isEmpty then ["Workflow deve ter um nó de início"]
     else if l.length > 1 then ["Workflow deve ter apenas um nó de início"]
     else ([] : List String)) = [] ↔ l.length = 1 := by
  rcases l with _ | ⟨a, _ | ⟨b, t⟩⟩
  · simp [List.isEmpty]
  · simp [List.isEmpty]
  · have h1 : (a :: b :: t).length > 1 := by simp
    simp [List.isEmpty, h1]

/-- The end-node diagnostic of `validate` is empty exactly when there
is at least one END node. -/
theorem endPiece_eq_nil_iff (l : List WorkflowNode) :
    (if l.isEmpty then ["Workflow deve ter pelo menos um nó de fim"]
     else ([] : List String)) = [] ↔ l.length ≥ 1 := by
  rcases l with _ | ⟨a, t⟩ <;> simp [List.isEmpty]

/-- The connectivity diagnostics of `validate` for one node are empty
exactly when the node, if neither START nor END, has an incoming and an
outgoing edge. -/
theorem connPiece_eq_nil_iff (n : WorkflowNode) :
    (if n.kind.nodeType ≠ NodeType.START ∧ n.kind.nodeType ≠ NodeType.END then
      (if n.incoming.isEmpty then
        ["Nó " ++ n.name ++ " não tem conexões de entrada"] else []) ++
      (if n.outgoing.isEmpty ∧ n.kind.nodeType ≠ NodeType.END then
        ["Nó " ++ n.name ++ " não tem conexões de saída"] else [])
     else []) = [] ↔
    (n.kind.nodeType ≠ NodeType.START → n.kind.nodeType ≠ NodeType.END →
      n.incoming ≠ [] ∧ n.outgoing ≠ []) := by
  by_cases hs : n.kind.nodeType = NodeType.START
  · simp [hs]
  · by_cases he : n.kind.nodeType = NodeType.END
    · simp [hs, he]
    · by_cases hi : n.incoming.isEmpty
      · simp [hs, he, hi, List.isEmpty_iff.mp hi]
      · by_cases ho : n.outgoing.isEmpty
        · simp [hs, he, hi, ho, List.isEmpty_iff.mp ho]
        · simp only [List.isEmpty_iff] at hi ho
          simp [hs, he, hi, ho]

/-- C7 (counterexample): the claim that `validate()` returns the empty
list only when every non-START node has an incoming edge and every
non-END node has an outgoing edge is refuted: the definition holding
one START and one END node and *no edges at all* validates clean
(`validate` skips END nodes in the incoming check and START nodes in
the outgoing check), while the claimed validity condition — stated as
`specValidOK`, following the spec's words — rejects it. -/
theorem C7_counterexample :
    c7StartEnd.validate = [] ∧ specValidOK c7StartEnd = false :=
  ⟨rfl, rfl⟩

/-- C7 (amended): `validate()` returns the empty list iff the
definition has exactly one START node, at least one END node, and every
node that is *neither START nor END* has at least one incoming and one
outgoing edge (END nodes are exempt from the incoming check and START
nodes from the outgoing check); when it is non-empty it accumulates
one diagnostic per violated invariant instead of stopping at the first,
e.g. the empty definition receives both the missing-START and the
missing-END diagnostics. -/
theorem C7_validate_empty_iff (wd : WorkflowDefinition) :
    (wd.validate = [] ↔
      ((wd.nodes.map Prod.snd).filter
          (fun n => n.kind.nodeType = NodeType.START)).length = 1 ∧
      ((wd.nodes.map Prod.snd).filter
          (fun n => n.kind.nodeType = NodeType.END)).length ≥ 1 ∧
      ∀ n ∈ wd.nodes.map Prod.snd,
        n.kind.nodeType ≠ NodeType.START → n.kind.nodeType ≠ NodeType.END →
          n.incoming ≠ [] ∧ n.outgoing ≠ []) ∧
    c7Empty.validate =
      ["Workflow deve ter um nó de início",
       "Workflow deve ter pelo menos um nó de fim"] := by
  refine ⟨?_, rfl⟩
  simp only [WorkflowDefinition.validate, List.append_eq_nil,
    List.flatten_eq_nil_iff, startPiece_eq_nil_iff, endPiece_eq_nil_iff]
  constructor
  · rintro ⟨⟨h1, h2⟩, h3⟩
    refine ⟨h1, h2, ?_⟩
    intro n hn
    exact (connPiece_eq_nil_iff n).mp (h3 _ (List.mem_map_of_mem _ hn))
  · rintro ⟨h1, h2, h3⟩
    refine ⟨⟨h1, h2⟩, ?_⟩
    intro x hx
    rcases List.mem_map.mp hx with ⟨n, hn, rfl⟩
    exact (connPiece_eq_nil_iff n).mpr (h3 n hn)

/-- C7 (witness): the amended iff applied to the Scenario B definition,
which satisfies the code's validity condition. -/
theorem C7_validate_empty_iff_witness : c5Def.validate = [] :=
  (C7_validate_empty_iff c5Def).1.mpr (by decide)

/-- C8: `register_workflow` fails exactly when `validate()` reports at
least one diagnostic, and on failure it raises before the assignment,
so the definition is never stored (the error carries the full
diagnostic list); `start_workflow` against an id absent from the
registry fails, so no Execution can be started against an unregistered
definition. -/
theorem C8_register_and_start (e : WorkflowEngine) (wd : WorkflowDefinition)
    (g : Gateway) (fuel : Nat) (workflowId userId companyId executionId : String)
    (vals : List (String × Value)) :
    ((∃ e', registerWorkflow e wd = Except.ok e') ↔ wd.validate = []) ∧
    (wd.validate ≠ [] →
      registerWorkflow e wd =
        Except.error ("Workflow inválido: " ++ String.intercalate ", " wd.validate)) ∧
    (dictContains e.workflowDefinitions workflowId = false →
      startWorkflow g fuel e workflowId userId companyId executionId vals =
        Except.error ("Workflow " ++ workflowId ++ " não encontrado")) := by
  refine ⟨⟨?_, ?_⟩, ?_, ?_⟩
  · rintro ⟨e', he⟩
    by_cases hv : wd.validate = []
    · exact hv
    · rw [registerWorkflow] at he
      rw [if_neg (by simpa [List.isEmpty_iff] using hv)] at he
      exact absurd he (by simp)
  · intro hv
    refine ⟨{ e with
      workflowDefinitions := dictInsert e.workflowDefinitions wd.workflowId wd },
      ?_⟩
    rw [registerWorkflow, if_pos (by simp [List.isEmpty_iff, hv])]
  · intro hv
    rw [registerWorkflow, if_neg (by simpa [List.isEmpty_iff] using hv)]
  · intro hc
    rw [startWorkflow, dictGet_eq_none_of_contains_false _ _ hc]

/-- C8 (witness): the theorem applied to Scenario D — a definition
missing an END node is rejected, and starting the unregistered id
fails. -/
theorem C8_register_and_start_witness :
    registerWorkflow emptyEngine c8NoEndDef =
      Except.error
        ("Workflow inválido: " ++ String.intercalate ", " c8NoEndDef.validate) ∧
    startWorkflow defaultGateway 5 emptyEngine "noend" "u" "c" "e1" [] =
      Except.error ("Workflow noend não encontrado") :=
  ⟨(C8_register_and_start emptyEngine c8NoEndDef defaultGateway 5 "noend" "u"
      "c" "e1" []).2.1 (by decide),
   ((C8_register_and_start emptyEngine c8NoEndDef defaultGateway 5 "noend" "u"
      "c" "e1" []).2.2 rfl).trans (by rfl)⟩

/-- C9: `complete_task` fails for an unknown execution id, and
`complete_human_task` fails when the node has no waiting task; on
success (waiting task present, node is a human task) every key/value of
the answers is merged into the execution's variables, the node's record
is marked COMPLETED, the task is removed from the waiting set, and the
token advances along the node's outgoing edges. -/
theorem C9_complete_task_contract (g : Gateway) (fuel : Nat)
    (e : WorkflowEngine) (executionId nodeId : String)
    (data : List (String × Value)) (wd : WorkflowDefinition) (st : ExecState)
    (node : WorkflowNode) (a : Option String) :
    (dictContains e.executions executionId = false →
      completeTask g fuel e executionId nodeId data =
        Except.error ("Execução " ++ executionId ++ " não encontrada")) ∧
    (dictContains st.waitingTasks nodeId = false →
      completeHumanTask g wd fuel nodeId data st =
        Except.error ("Tarefa " ++ nodeId ++ " não encontrada ou já completada")) ∧
    (dictContains st.waitingTasks nodeId = true →
      dictGet wd.nodes nodeId = some node →
      node.kind = NodeKind.humanTask a →
      completeHumanTask g wd fuel nodeId data st =
        Except.ok (runNodes g wd fuel (node.outgoing.map Conn.nodeId)
          { st with
            vars := data.foldl (fun vs p => dictInsert vs p.1
              { name := p.1, value := p.2, type := pyTypeName p.2 }) st.vars,
            nodeExecutions := dictInsert st.nodeExecutions nodeId
              { nodeId := nodeId, status := ExecutionStatus.COMPLETED,
                errorMessage := none },
            waitingTasks := dictRemove st.waitingTasks nodeId })) := by
  refine ⟨?_, ?_, ?_⟩
  · intro hc
    rw [completeTask, dictGet_eq_none_of_contains_false _ _ hc]
  · intro hc
    rw [completeHumanTask, if_pos hc]
  · intro hc hn hk
    rw [completeHumanTask, if_neg (by simp [hc]), hn]
    simp only [hk]

/-- C9 (witness): the contract applied concretely — an unknown
execution id fails; completing `manual_review` in the Scenario B run
(which is waiting there) succeeds, and the resulting state is
COMPLETED with the answer merged into the variables and the waiting set
emptied. -/
theorem C9_complete_task_contract_witness :
    (completeTask defaultGateway 10 emptyEngine "missing" "manual_review" [] =
      Except.error ("Execução " ++ "missing" ++ " não encontrada")) ∧
    ∃ st', completeHumanTask defaultGateway c5Def 10 "manual_review"
        [("approved", Value.bool true)] runC5 = Except.ok st' ∧
      st'.status = ExecutionStatus.COMPLETED ∧
      (dictGet st'.vars "approved").map WorkflowVariable.value =
        some (Value.bool true) ∧
      st'.waitingTasks = [] :=
  ⟨(C9_complete_task_contract defaultGateway 10 emptyEngine "missing"
      "manual_review" [] c5Def runC5 c5ManualNode (some "manager")).1 rfl,
   ⟨_, (C9_complete_task_contract defaultGateway 10 emptyEngine "missing"
      "manual_review" [("approved", Value.bool true)] c5Def runC5 c5ManualNode
      (some "manager")).2.2 rfl rfl rfl, rfl, rfl, rfl⟩⟩

/-- C10: `connect_nodes` with a `fromId` or `toId` that is not a key of
the node dictionary is a silent no-op — the definition is returned
unchanged and no error is raised; when both ids are present (and
distinct) exactly one outgoing connection is appended on the source
node and one incoming connection on the target node. -/
theorem C10_connect_nodes (wd : WorkflowDefinition) (fromNode toNode : String)
    (condition : Option String) :
    ((dictContains wd.nodes fromNode = false ∨
        dictContains wd.nodes toNode = false) →
      wd.connectNodes fromNode toNode condition = wd) ∧
    (∀ nf nt, fromNode ≠ toNode →
      dictGet wd.nodes fromNode = some nf →
      dictGet wd.nodes toNode = some nt →
      dictGet (wd.connectNodes fromNode toNode condition).nodes fromNode =
        some { nf with outgoing :=
          nf.outgoing ++ [{ nodeId := toNode, condition := condition }] } ∧
      dictGet (wd.connectNodes fromNode toNode condition).nodes toNode =
        some { nt with incoming :=
          nt.incoming ++ [{ nodeId := fromNode, condition := condition }] }) := by
  constructor
  · intro h
    rw [WorkflowDefinition.connectNodes, if_neg]
    rcases h with h | h <;> simp [h]
  · intro nf nt hne hf ht
    have hcf : dictContains wd.nodes fromNode = true := by
      rw [dictContains, hf]; rfl
    have hct : dictContains wd.nodes toNode = true := by
      rw [dictContains, ht]; rfl
    rw [WorkflowDefinition.connectNodes, if_pos (by simp [hcf, hct])]
    constructor
    · show dictGet (dictUpdate (dictUpdate wd.nodes fromNode _) toNode _)
        fromNode = _
      rw [dictGet_dictUpdate_ne _ _ _ _ hne, dictGet_dictUpdate_self, hf]
      rfl
    · show dictGet (dictUpdate (dictUpdate wd.nodes fromNode _) toNode _)
        toNode = _
      rw [dictGet_dictUpdate_self, dictGet_dictUpdate_ne _ _ _ _ hne.symm, ht]
      rfl

/-- C10 (witness): the theorem applied to the two-node definition —
connecting from the absent id `ghost` is a no-op, and connecting
`start → end` appends the edge on both endpoints. -/
theorem C10_connect_nodes_witness :
    c7StartEnd.connectNodes "ghost" "end" none = c7StartEnd ∧
    dictGet (c7StartEnd.connectNodes "start" "end" none).nodes "start" =
      some { mkNode "start" "Start" NodeKind.start with
        outgoing := (mkNode "start" "Start" NodeKind.start).outgoing ++
          [{ nodeId := "end", condition := none }] } ∧
    dictGet (c7StartEnd.connectNodes "start" "end" none).nodes "end" =
      some { mkNode "end" "End" NodeKind.end_ with
        incoming := (mkNode "end" "End" NodeKind.end_).incoming ++
          [{ nodeId := "start", condition := none }] } :=
  ⟨(C10_connect_nodes c7StartEnd "ghost" "end" none).1 (Or.inl rfl),
   ((C10_connect_nodes c7StartEnd "start" "end" none).2
      (mkNode "start" "Start" NodeKind.start) (mkNode "end" "End" NodeKind.end_)
      (by decide) rfl rfl).1,
   ((C10_connect_nodes c7StartEnd "start" "end" none).2
      (mkNode "start" "Start" NodeKind.start) (mkNode "end" "End" NodeKind.end_)
      (by decide) rfl rfl).2⟩

end Omnicore
